import Mathlib

/-!
Verification development for the CCC static site core: the hash router
(`js/router.js`), the i18n translation store and the contact-form handler
(`i18n.js` / `contact.js`).

JavaScript objects used as dictionaries (`ROUTES`, `pageCache`,
`translations`, `localStorage`) are embedded as string-keyed association
lists.  JS truthiness on strings (`if (x)`) is the test `x ≠ ""`; a
possibly-missing DOM element or property is an `Option`.  Asynchronous
`fetch` is embedded as an oracle `String → FetchOutcome` supplied as a
parameter, and each issued request is recorded in a log so that "no second
network fetch" is a statement about that log.  Console output that a claim
mentions (warnings) is recorded in a log field; other `console.info`
diagnostics are not tracked.
-/

namespace CCC

/-- Association-list lookup, the embedding of JS property read `m[k]`
on an object used as a dictionary (own properties only). -/
def alGet {β : Type} : List (String × β) → String → Option β
  | [], _ => none
  | (k, v) :: rest, key => if k = key then some v else alGet rest key

/-- Association-list insert-or-replace, the embedding of `m[k] = v`. -/
def alPut {β : Type} : List (String × β) → String → β → List (String × β)
  | [], key, v => [(key, v)]
  | (k, w) :: rest, key, v =>
    if k = key then (k, v) :: rest else (k, w) :: alPut rest key v

/-- JS truthiness of a string value: only the empty string is falsy. -/
def strTruthy (s : String) : Bool := s ≠ ""

/-- JS truthiness of a possibly-missing string (`x && x.value`-style guards):
missing or empty is falsy. -/
def optTruthy : Option String → Bool
  | none => false
  | some s => strTruthy s

-- ── i18n.js ──────────────────────────────────────────────────────────────

/-- Constant `SUPPORTED_LANGS = ['en', 'de', 'pt']` (i18n.js). -/
def SUPPORTED_LANGS : List String := ["en", "de", "pt"]

/-- Constant `FALLBACK_LANG = 'en'` (i18n.js). -/
def FALLBACK_LANG : String := "en"

/-- The i18n module state: the two-level `translations` table loaded from
`translations.json` (language code → key → localized string) and the
module-private `currentLang`. -/
structure I18nState where
  translations : List (String × List (String × String))
  currentLang : String
deriving Repr, DecidableEq

/-- Embedding of `translations[lang]?.[key]`: optional-chained two-level
lookup. -/
def tblGet (st : I18nState) (lang key : String) : Option String :=
  match alGet st.translations lang with
  | none => none
  | some tbl => alGet tbl key

/-- Function `t(key)` from i18n.js, returning the resolved string together with the
`console.warn` diagnostics it emits.  First the active language is
consulted, then the fallback language, and on a total miss the key itself
is returned. -/
def tRun (st : I18nState) (key : String) : String × List String :=
  match tblGet st st.currentLang key with
  | some value => (value, [])
  | none =>
    match tblGet st FALLBACK_LANG key with
    | some fallback =>
      (fallback, ["[i18n] Key \"" ++ key ++ "\" missing in \"" ++ st.currentLang
        ++ "\", using fallback."])
    | none => (key, ["[i18n] Translation key not found: \"" ++ key ++ "\""])

/-- The value `t(key)` returns. -/
def t (st : I18nState) (key : String) : String := (tRun st key).1

/-- The translatable part of the document that `updateDOM` touches:
`[data-i18n]` elements (key, textContent), `[data-i18n-html]` elements
(key, innerHTML), the `<html lang>` attribute, and the
`[data-lang-btn]` buttons (language code, active/aria-pressed state). -/
structure Dom where
  i18nElems : List (String × String)
  i18nHtmlElems : List (String × String)
  htmlLang : String
  langBtns : List (String × Bool)
deriving Repr, DecidableEq

/-- Function `updateDOM()` from i18n.js: re-translates every `[data-i18n]` and
`[data-i18n-html]` element, sets `document.documentElement.lang` to
`t('lang.html') || currentLang` (JS `||`: the empty string falls back),
and toggles the active state of the language buttons.  Console
diagnostics from the inner `t` calls are not tracked here. -/
def updateDOM (st : I18nState) (dom : Dom) : Dom :=
  { i18nElems := dom.i18nElems.map (fun e => (e.1, t st e.1))
    i18nHtmlElems := dom.i18nHtmlElems.map (fun e => (e.1, t st e.1))
    htmlLang := if strTruthy (t st "lang.html") then t st "lang.html" else st.currentLang
    langBtns := dom.langBtns.map (fun b => (b.1, b.1 = st.currentLang)) }

/-- The world the i18n module mutates: its own state, the translatable DOM,
`localStorage`, the dispatched `langchange` event payloads, and the
console-warning log. -/
structure I18nApp where
  i18n : I18nState
  dom : Dom
  storage : List (String × String)
  events : List String
  log : List String
deriving Repr, DecidableEq

/-- Function `setLanguage(lang)` from i18n.js: an unsupported language only logs a
warning; a supported one updates `currentLang`, persists it under the
`localStorage` key `ccc-lang`, re-renders the DOM via `updateDOM`, and
dispatches a `langchange` CustomEvent whose detail carries `lang`. -/
def setLanguage (app : I18nApp) (lang : String) : I18nApp :=
  if SUPPORTED_LANGS.contains lang = false then
    { app with log := app.log ++ ["[i18n] Unsupported language: \"" ++ lang ++ "\""] }
  else
    let st := { app.i18n with currentLang := lang }
    { i18n := st
      dom := updateDOM st app.dom
      storage := alPut app.storage "ccc-lang" lang
      events := app.events ++ [lang]
      log := app.log }

-- ── router.js ────────────────────────────────────────────────────────────

/-- Constant `ROUTES` from router.js: registered route → fragment file path. -/
def ROUTES : List (String × String) :=
  [("home", "pages/home.html"),
   ("about", "pages/about.html"),
   ("services", "pages/services.html"),
   ("contact", "pages/contact.html"),
   ("imprint", "pages/imprint.html")]

/-- Constant `DEFAULT_ROUTE = 'home'` (router.js). -/
def DEFAULT_ROUTE : String := "home"

/-- The truthy read `ROUTES[route]` used by both `getCurrentRoute` and
`navigate`: a present but empty path would be falsy in JS, so it is
treated like a missing one. -/
def routesLookup (route : String) : Option String :=
  match alGet ROUTES route with
  | none => none
  | some fp => if strTruthy fp then some fp else none

/-- Function `getCurrentRoute()` from router.js, with the already-`#`-stripped hash
as its input: a hash naming a (truthy) registered route is returned
unchanged, anything else yields `DEFAULT_ROUTE`. -/
def getCurrentRoute (hash : String) : String :=
  match routesLookup hash with
  | some _ => hash
  | none => DEFAULT_ROUTE

/-- Outcome of one `fetch` call: a 2xx response with its body text, a
non-2xx response with its status, or a network error (rejection). -/
inductive FetchOutcome where
  | ok (text : String)
  | httpError (status : Nat)
  | networkError
deriving Repr, DecidableEq

/-- The part of the world the router mutates: the `pageCache`, the
`#content` region's markup, `document.title`, the
`meta[name="description"]` element (`none` when the element is absent),
the `[data-page]` nav links (route, active/aria-current state), the list
of issued fetch request paths, and the console warning/error log.
`window.scrollTo` and the page-specific initializers invoked by
`initPageScripts` have no further observable state here. -/
structure RouterState where
  pageCache : List (String × String)
  content : String
  title : String
  metaDesc : Option String
  navLinks : List (String × Bool)
  fetchLog : List String
  log : List String
deriving Repr, DecidableEq

/-- The markup `showLoading()` writes into the content region (template
whitespace collapsed). -/
def loadingHtml : String :=
  "<div class=\"page-loading\" role=\"status\" aria-label=\"Loading page\">"
    ++ "<div class=\"loading-spinner\"></div></div>"

/-- Function `showLoading()` from router.js. -/
def showLoading (st : RouterState) : RouterState :=
  { st with content := loadingHtml }

/-- The markup `showError(route)` writes into the content region (template
whitespace collapsed): it interpolates the failing route and carries the
recovery link to the default route. -/
def showErrorHtml (route : String) : String :=
  "<div class=\"page-error\"><h2>Page not found</h2><p>Could not load page: <code>"
    ++ route
    ++ "</code></p><a href=\"#home\" class=\"btn-primary\">Back to Home</a></div>"

/-- Function `showError(route)` from router.js. -/
def showError (route : String) (st : RouterState) : RouterState :=
  { st with content := showErrorHtml route }

/-- Function `updateActiveNavLink(route)` from router.js: exactly the links whose
`data-page` equals the route become active / `aria-current`. -/
def updateActiveNavLink (route : String) (st : RouterState) : RouterState :=
  { st with navLinks := st.navLinks.map (fun l => (l.1, l.1 = route)) }

/-- Function `updatePageMeta(route)` from router.js: the document title and the
description `meta` element are set from the translation keys
`page.<route>.title` and `page.<route>.meta`, each skipped when the
lookup misses (returns its key unchanged) — and the description also
requires the `meta` element to exist.  (The `typeof i18n === 'undefined'`
guard is vacuous here: the i18n module is always in scope.) -/
def updatePageMeta (i : I18nState) (route : String) (st : RouterState) : RouterState :=
  let titleKey := "page." ++ route ++ ".title"
  let metaKey := "page." ++ route ++ ".meta"
  let title := t i titleKey
  let st1 := if title ≠ titleKey then { st with title := title } else st
  let desc := t i metaKey
  match st1.metaDesc with
  | some _ => if desc ≠ metaKey then { st1 with metaDesc := some desc } else st1
  | none => st1

/-- Function `renderPage(html, route)` from router.js: writes the fragment into the
content region, re-applies translations (`i18n.updateDOM()` — acting on
document elements not tracked in `RouterState`), marks the active nav
link, refreshes title/description, scrolls to the top and runs the
page-specific initializer (both untracked). -/
def renderPage (i : I18nState) (html route : String) (st : RouterState) : RouterState :=
  updatePageMeta i route (updateActiveNavLink route { st with content := html })

/-- The cache-miss path of `navigate`: issue the fetch for `fp` — recording
it in `fetchLog` — and on a 2xx response cache the body under `route` and
render it, while a thrown error (non-2xx status or network failure) is
caught, `console.error`-logged and turned into the error view, leaving
the cache untouched. -/
def navigateFetch (i : I18nState) (fetch0 : String → FetchOutcome)
    (route fp : String) (st1 : RouterState) : RouterState :=
  let st2 := { st1 with fetchLog := st1.fetchLog ++ [fp] }
  match fetch0 fp with
  | .ok html =>
    renderPage i html route { st2 with pageCache := alPut st2.pageCache route html }
  | _ =>
    showError route { st2 with log := st2.log ++ ["[router] Navigation failed"] }

/-- The body of `navigate` for a registered route with (truthy) file path
`fp`: show the loading state, then serve the fragment from `pageCache`
when its entry is truthy (`if (pageCache[route])`), otherwise take the
fetch path. -/
def navigateCore (i : I18nState) (fetch0 : String → FetchOutcome)
    (route fp : String) (st : RouterState) : RouterState :=
  let st1 := showLoading st
  match alGet st1.pageCache route with
  | some cached =>
    if strTruthy cached then
      renderPage i cached route st1
    else
      navigateFetch i fetch0 route fp st1
  | none => navigateFetch i fetch0 route fp st1

/-- Function `navigate(route)` from router.js as a fuel-indexed recursion: an
unregistered (or falsy-path) route logs a warning and recurses on
`DEFAULT_ROUTE`; `none` is the out-of-fuel sentinel standing for
non-termination of that recursion. -/
def navigateF (i : I18nState) (fetch0 : String → FetchOutcome) :
    Nat → String → RouterState → Option RouterState
  | 0, _, _ => none
  | fuel + 1, route, st =>
    match routesLookup route with
    | some fp => some (navigateCore i fetch0 route fp st)
    | none =>
      navigateF i fetch0 fuel DEFAULT_ROUTE
        { st with log := st.log ++
            ["[router] Unknown route: \"" ++ route ++ "\", redirecting to default."] }

/-- Function `navigate(route)`: fuel 2 suffices because the recursion takes at most
one extra hop (the default route is registered — proved below). -/
def navigate (i : I18nState) (fetch0 : String → FetchOutcome)
    (route : String) (st : RouterState) : RouterState :=
  (navigateF i fetch0 2 route st).getD st

/-- A session suffix: a sequence of further navigations, in order. -/
def navSeq (i : I18nState) (fetch0 : String → FetchOutcome)
    (rs : List String) (st : RouterState) : RouterState :=
  rs.foldl (fun s r => navigate i fetch0 r s) st

/-- The `langchange` listener bound in `bindEvents()` (router.js):
it only calls `updatePageMeta(getCurrentRoute())`. -/
def onLangChange (i : I18nState) (hash : String) (st : RouterState) : RouterState :=
  updatePageMeta i (getCurrentRoute hash) st

-- ── contact.js ───────────────────────────────────────────────────────────

/-- Constant `FORMSPREE_URL` from contact.js. -/
def FORMSPREE_URL : String := "https://formspree.io/f/YOUR_FORM_ID"

/-- The whitespace class of the JS regex `\s` and of `String.trim`,
restricted to the characters that can occur here: ASCII whitespace plus
the common Unicode blanks.  (The remaining Unicode space separators
matched by `\s` are irrelevant to the claims below.) -/
def isJsSpace (c : Char) : Bool :=
  c.isWhitespace || c = '\u000B' || c = '\u000C' || c = '\u00A0' || c = '\uFEFF'

/-- JS `String.prototype.trim()`: strip leading and trailing whitespace. -/
def jsTrim (s : String) : String :=
  String.mk (((s.data.dropWhile isJsSpace).reverse.dropWhile isJsSpace).reverse)

/-- One character of the regex class `[^\s@]`. -/
def emailChar (c : Char) : Bool := !(isJsSpace c) && c ≠ '@'

/-- The test of the contact-form regex `^[^\s@]+@[^\s@]+\.[^\s@]+$`: the
whole string decomposes as `A ++ "@" ++ B ++ "." ++ C` with `A`, `B`,
`C` nonempty and free of whitespace and `@` (`B` and `C` may contain
further dots).  Equivalently: exactly one `@`, only `[^\s@]` characters
around it, a nonempty part before the `@`, and a dot in the part after
the `@` that has at least one character on each side. -/
def emailTest (s : String) : Bool :=
  match s.splitOn "@" with
  | [a, b] =>
    a.length > 0 && a.data.all emailChar && b.data.all emailChar &&
      (List.range b.data.length).any
        (fun i => b.data.getD i ' ' = '.' && decide (1 ≤ i) && decide (i + 2 ≤ b.data.length))
  | _ => false

/-- The contact form's field values; the honeypot `input[name="_gotcha"]`
is `none` when the element is absent from the markup. -/
structure ContactForm where
  name : String
  email : String
  message : String
  gotcha : Option String
deriving Repr, DecidableEq

/-- The contact UI state `handleSubmit` mutates: visibility of the form,
submit button, success and error messages, the button's loading state,
the set of fields currently marked `.has-error`, and the log of issued
network requests. -/
structure ContactState where
  formHidden : Bool
  btnHidden : Bool
  btnLoading : Bool
  btnDisabled : Bool
  successHidden : Bool
  errorHidden : Bool
  errorFields : List String
  netLog : List String
deriving Repr, DecidableEq

/-- Function `validate(form)` from contact.js: clears previous error marks, then
marks name (trimmed length ≥ 2), email (regex) and message (trimmed
length ≥ 10); returns whether all fields passed together with the newly
marked fields. -/
def validate (form : ContactForm) : Bool × List String :=
  let nameBad := jsTrim form.name = "" || (jsTrim form.name).length < 2
  let emailBad := jsTrim form.email = "" || emailTest (jsTrim form.email) = false
  let msgBad := jsTrim form.message = "" || (jsTrim form.message).length < 10
  (!nameBad && !emailBad && !msgBad,
    (if nameBad then ["name"] else []) ++ (if emailBad then ["email"] else [])
      ++ (if msgBad then ["message"] else []))

/-- Function `showSuccess` from contact.js: hides the form and the button, reveals
the success message. -/
def showSuccess (st : ContactState) : ContactState :=
  { st with formHidden := true, btnHidden := true, successHidden := false }

/-- Function `setLoading` from contact.js. -/
def setLoading (loading : Bool) (st : ContactState) : ContactState :=
  { st with btnLoading := loading, btnDisabled := loading }

/-- Function `handleSubmit` from contact.js, with the outcome of the Formspree POST
supplied as the oracle `post`: a truthy honeypot fakes success without
any request; an invalid form stops after marking its fields; otherwise
the request is issued (recorded in `netLog`) and its outcome decides
between the success view and the retryable inline error. -/
def handleSubmit (post : FetchOutcome) (form : ContactForm) (st : ContactState) :
    ContactState :=
  if optTruthy form.gotcha then
    showSuccess st
  else
    let v := validate form
    let st1 := { st with errorFields := v.2 }
    if v.1 = false then st1
    else
      let st2 := { (setLoading true st1) with
                   errorHidden := true
                   netLog := st1.netLog ++ [FORMSPREE_URL] }
      match post with
      | .ok _ => showSuccess st2
      | _ => { (setLoading false st2) with errorHidden := false }

-- ── Sample data (used to evaluate the theorems on concrete inputs) ───────

/-- A small translation table: `en` with keys `a`, `b`; `de` with key `a`
only; active language `de`. -/
def sampleI18n : I18nState :=
  ⟨[("en", [("a", "A"), ("b", "B")]), ("de", [("a", "dA")])], "de"⟩

/-- An i18n state as after a failed `load()`: the table is empty. -/
def emptyI18n : I18nState := ⟨[], "en"⟩

/-- An i18n state whose only entry maps `lang.html` to the empty string. -/
def langEmptyI18n : I18nState := ⟨[("en", [("lang.html", "")])], "en"⟩

/-- An i18n state carrying title and meta entries for the `about` page. -/
def langPageI18n : I18nState :=
  ⟨[("en", [("page.about.title", "About title"), ("page.about.meta", "About meta")])], "en"⟩

/-- A small translatable document. -/
def sampleDom : Dom :=
  ⟨[("a", "old")], [("b", "old")], "xx", [("en", true), ("de", false), ("pt", false)]⟩

/-- A small i18n world around `sampleI18n`. -/
def sampleApp : I18nApp := ⟨sampleI18n, sampleDom, [], [], []⟩

/-- A fresh router state: empty cache, no requests issued yet. -/
def emptyRouter : RouterState :=
  ⟨[], "", "T0", some "D0", [("home", false), ("about", false)], [], []⟩

/-- A fetch oracle in which every request fails with HTTP 404. -/
def fetchFail : String → FetchOutcome := fun _ => .httpError 404

/-- A fetch oracle serving a nonempty body for every path. -/
def fetchOkPage : String → FetchOutcome := fun p => .ok ("<h1>" ++ p ++ "</h1>")

/-- A fetch oracle serving an empty body for every path. -/
def fetchOkEmpty : String → FetchOutcome := fun _ => .ok ""

-- ── Theorems ─────────────────────────────────────────────────────────────

theorem alGet_alPut_same {β : Type} (m : List (String × β)) (k : String) (v : β) :
    alGet (alPut m k v) k = some v := by
  induction m with
  | nil => simp [alGet, alPut]
  | cons p rest ih =>
    by_cases h : p.1 = k
    · simp [alPut, alGet, h]
    · simp [alPut, alGet, h, ih]

theorem alGet_alPut_other {β : Type} (m : List (String × β)) (k k2 : String) (v : β)
    (h : k ≠ k2) : alGet (alPut m k v) k2 = alGet m k2 := by
  induction m with
  | nil => simp [alGet, alPut, h]
  | cons p rest ih =>
    by_cases h1 : p.1 = k
    · simp [alPut, alGet, h1, h]
    · by_cases h2 : p.1 = k2 <;> simp [alPut, alGet, h1, h2, ih, Ne.symm h]

theorem data_append (s r : String) : (s ++ r).data = s.data ++ r.data := by
  cases s
  cases r
  rfl

/-- C1: resolving the current route with the navigation hash equal to any
registered route returns that route, and any hash that is not a registered
route — the empty hash included — resolves to the default route `home`. -/
theorem getCurrentRoute_spec :
    (∀ r ∈ ["home", "about", "services", "contact", "imprint"], getCurrentRoute r = r) ∧
    (∀ h, alGet ROUTES h = none → getCurrentRoute h = "home") ∧
    getCurrentRoute "" = "home" := by
  refine ⟨by decide, ?_, by decide⟩
  intro h hh
  simp [getCurrentRoute, routesLookup, hh, DEFAULT_ROUTE]

theorem getCurrentRoute_spec_witness :
    getCurrentRoute "about" = "about" ∧ getCurrentRoute "nope" = "home" :=
  ⟨getCurrentRoute_spec.1 "about" (by decide),
   getCurrentRoute_spec.2.1 "nope" (by decide)⟩

/-- C2: `t` is a total function into `String` (it can neither throw nor
return `undefined`, and it consumes its state without mutating it); a key
present for the active language yields that language's value, a key present
only for the fallback language `en` yields the fallback value, and a key
absent from both yields the key string itself. -/
theorem t_spec (st : I18nState) (key : String) :
    (∀ v, tblGet st st.currentLang key = some v → t st key = v) ∧
    (tblGet st st.currentLang key = none →
      ∀ v, tblGet st FALLBACK_LANG key = some v → t st key = v) ∧
    (tblGet st st.currentLang key = none → tblGet st FALLBACK_LANG key = none →
      t st key = key) := by
  refine ⟨?_, ?_, ?_⟩
  · intro v hv
    simp [t, tRun, hv]
  · intro h0 v hv
    simp [t, tRun, h0, hv]
  · intro h0 h1
    simp [t, tRun, h0, h1]

theorem t_spec_witness :
    t sampleI18n "a" = "dA" ∧ t sampleI18n "b" = "B" ∧ t sampleI18n "zz" = "zz" :=
  ⟨(t_spec sampleI18n "a").1 "dA" (by decide),
   (t_spec sampleI18n "b").2.1 (by decide) "B" (by decide),
   (t_spec sampleI18n "zz").2.2 (by decide) (by decide)⟩

/-- C5: `setLanguage` on a language outside the supported set only appends
the warning to the console log — active language, persisted preference,
DOM, and event stream are all exactly as before and no `langchange` event
is dispatched; on a supported language it sets the active language,
persists it under `ccc-lang`, re-renders the translatable DOM via
`updateDOM`, and dispatches one `langchange` notification carrying the
language code. -/
theorem setLanguage_spec (app : I18nApp) (lang : String) :
    (SUPPORTED_LANGS.contains lang = false →
      setLanguage app lang =
        { app with log := app.log ++ ["[i18n] Unsupported language: \"" ++ lang ++ "\""] }) ∧
    (SUPPORTED_LANGS.contains lang = true →
      (setLanguage app lang).i18n.currentLang = lang ∧
      (setLanguage app lang).i18n.translations = app.i18n.translations ∧
      alGet (setLanguage app lang).storage "ccc-lang" = some lang ∧
      (setLanguage app lang).dom = updateDOM { app.i18n with currentLang := lang } app.dom ∧
      (setLanguage app lang).events = app.events ++ [lang]) := by
  constructor
  · intro h
    have h2 : lang ∉ SUPPORTED_LANGS := by simpa using h
    simp [setLanguage, h2]
  · intro h
    have h2 : lang ∈ SUPPORTED_LANGS := by simpa using h
    simp [setLanguage, h2, alGet_alPut_same]

theorem setLanguage_spec_witness :
    setLanguage sampleApp "fr" =
      { sampleApp with log := ["[i18n] Unsupported language: \"fr\""] } ∧
    (setLanguage sampleApp "pt").i18n.currentLang = "pt" ∧
    (setLanguage sampleApp "pt").events = ["pt"] :=
  ⟨(setLanguage_spec sampleApp "fr").1 (by decide),
   ((setLanguage_spec sampleApp "pt").2 (by decide)).1,
   ((setLanguage_spec sampleApp "pt").2 (by decide)).2.2.2.2⟩

theorem updatePageMeta_eq (i : I18nState) (route : String) (st : RouterState) :
    updatePageMeta i route st =
      { st with
        title := if t i ("page." ++ route ++ ".title") ≠ "page." ++ route ++ ".title"
          then t i ("page." ++ route ++ ".title") else st.title
        metaDesc :=
          match st.metaDesc with
          | some d => if t i ("page." ++ route ++ ".meta") ≠ "page." ++ route ++ ".meta"
              then some (t i ("page." ++ route ++ ".meta")) else some d
          | none => none } := by
  cases st with
  | mk pc c ti md nl fl lg =>
    unfold updatePageMeta
    by_cases h1 : t i ("page." ++ route ++ ".title") = "page." ++ route ++ ".title" <;>
      by_cases h2 : t i ("page." ++ route ++ ".meta") = "page." ++ route ++ ".meta" <;>
      cases md <;>
      simp [h1, h2]

/-- C7: rendering a route sets the document title from the translation key
`page.<route>.title` and the meta description from `page.<route>.meta`, and
for each of the two keys a lookup miss (the key returned unchanged) leaves
the existing title or description untouched instead of writing the raw
key. -/
theorem updatePageMeta_spec (i : I18nState) (route : String) (st : RouterState) :
    (t i ("page." ++ route ++ ".title") = "page." ++ route ++ ".title" →
      (updatePageMeta i route st).title = st.title) ∧
    (t i ("page." ++ route ++ ".title") ≠ "page." ++ route ++ ".title" →
      (updatePageMeta i route st).title = t i ("page." ++ route ++ ".title")) ∧
    (t i ("page." ++ route ++ ".meta") = "page." ++ route ++ ".meta" →
      (updatePageMeta i route st).metaDesc = st.metaDesc) ∧
    (∀ d, st.metaDesc = some d →
      t i ("page." ++ route ++ ".meta") ≠ "page." ++ route ++ ".meta" →
      (updatePageMeta i route st).metaDesc = some (t i ("page." ++ route ++ ".meta"))) := by
  rw [updatePageMeta_eq]
  refine ⟨?_, ?_, ?_, ?_⟩
  · intro h
    simp [h]
  · intro h
    simp [h]
  · intro h
    cases hd : st.metaDesc <;> simp [h, hd]
  · intro d hd h
    simp [h, hd]

theorem updatePageMeta_spec_witness :
    (updatePageMeta sampleI18n "about" emptyRouter).title = emptyRouter.title ∧
    (updatePageMeta langPageI18n "about" emptyRouter).title = "About title" ∧
    (updatePageMeta langPageI18n "about" emptyRouter).metaDesc = some "About meta" :=
  ⟨(updatePageMeta_spec sampleI18n "about" emptyRouter).1 (by decide),
   (updatePageMeta_spec langPageI18n "about" emptyRouter).2.1 (by decide),
   (updatePageMeta_spec langPageI18n "about" emptyRouter).2.2.2 "D0" (by decide) (by decide)⟩

/-- C8: the `langchange` listener refreshes only the title and description
metadata of the currently resolved route — it is exactly
`updatePageMeta` at `getCurrentRoute`, and it leaves the content region's
markup, the page cache, the fetch log and the nav links untouched. -/
theorem onLangChange_spec (i : I18nState) (hash : String) (st : RouterState) :
    onLangChange i hash st = updatePageMeta i (getCurrentRoute hash) st ∧
    (onLangChange i hash st).content = st.content ∧
    (onLangChange i hash st).pageCache = st.pageCache ∧
    (onLangChange i hash st).fetchLog = st.fetchLog ∧
    (onLangChange i hash st).navLinks = st.navLinks := by
  refine ⟨rfl, ?_, ?_, ?_, ?_⟩ <;>
    simp [onLangChange, updatePageMeta_eq]

/-- C6: `navigate` on an unregistered route appends the unknown-route
warning to the console log and recurses into `navigate` of the default
route; one unit of recursion fuel is not enough (the recursion really
takes the extra hop) but two units are, because the default route `home`
is registered — so the recursion terminates after exactly one extra
hop. -/
theorem navigate_unknown_route (i : I18nState) (fetch0 : String → FetchOutcome)
    (route : String) (st : RouterState) (h : routesLookup route = none) :
    navigateF i fetch0 1 route st = none ∧
    navigateF i fetch0 2 route st =
      some (navigateCore i fetch0 "home" "pages/home.html"
        { st with log := st.log ++
            ["[router] Unknown route: \"" ++ route ++ "\", redirecting to default."] }) := by
  constructor
  · simp [navigateF, h]
  · have hh : routesLookup "home" = some "pages/home.html" := by decide
    simp [navigateF, h, hh, DEFAULT_ROUTE]

theorem navigate_unknown_route_witness :
    navigateF sampleI18n fetchFail 1 "blog" emptyRouter = none ∧
    navigateF sampleI18n fetchFail 2 "blog" emptyRouter =
      some (navigateCore sampleI18n fetchFail "home" "pages/home.html"
        { emptyRouter with log :=
            ["[router] Unknown route: \"blog\", redirecting to default."] }) :=
  navigate_unknown_route sampleI18n fetchFail "blog" emptyRouter (by decide)

/-- C9: a contact-form submission whose hidden honeypot field is non-empty
is answered with the fake success view (form and button hidden, success
message revealed) and issues no network request, whatever the other fields
contain and whatever the Formspree endpoint would have answered. -/
theorem honeypot_fake_success (post : FetchOutcome) (form : ContactForm)
    (st : ContactState) (hp : optTruthy form.gotcha = true) :
    handleSubmit post form st = showSuccess st ∧
    (handleSubmit post form st).netLog = st.netLog ∧
    (handleSubmit post form st).formHidden = true ∧
    (handleSubmit post form st).successHidden = false := by
  refine ⟨by simp [handleSubmit, hp], ?_, ?_, ?_⟩ <;>
    simp [handleSubmit, hp, showSuccess]

theorem honeypot_fake_success_witness :
    handleSubmit FetchOutcome.networkError
        ⟨"x", "not-an-email", "short", some "bot-filled"⟩
        ⟨false, false, false, false, true, true, [], []⟩ =
      showSuccess ⟨false, false, false, false, true, true, [], []⟩ :=
  (honeypot_fake_success FetchOutcome.networkError
    ⟨"x", "not-an-email", "short", some "bot-filled"⟩
    ⟨false, false, false, false, true, true, [], []⟩ (by decide)).1

/-- C10 counterexample: `t` can return a falsy value — a translation table
mapping `lang.html` to the empty string makes `t` return `""`, and then
`updateDOM` does take the `|| currentLang` fallback: the document language
attribute becomes the current language code instead of the (empty) lookup
result, so the fallback is reachable, contrary to the claim. -/
theorem updateDOM_fallback_reached :
    t langEmptyI18n "lang.html" = "" ∧
    (updateDOM langEmptyI18n sampleDom).htmlLang = "en" ∧
    (updateDOM langEmptyI18n sampleDom).htmlLang ≠ t langEmptyI18n "lang.html" := by
  refine ⟨by decide, by decide, by decide⟩

/-- C10 amended: `t` never returns `undefined` but can return the empty
string, so the `|| currentLang` fallback in `updateDOM` is reachable;
still, whenever the key `lang.html` is absent from every language table —
in particular after a translation-load failure leaves the table empty —
`t` returns the key itself, which is nonempty, and the document language
attribute becomes the literal string `lang.html` rather than the current
language code. -/
theorem updateDOM_missing_key_literal (i : I18nState) (dom : Dom)
    (h : ∀ lang tbl, alGet i.translations lang = some tbl → alGet tbl "lang.html" = none) :
    t i "lang.html" = "lang.html" ∧
    (updateDOM i dom).htmlLang = "lang.html" := by
  have h1 : ∀ lang, tblGet i lang "lang.html" = none := by
    intro lang
    unfold tblGet
    cases hc : alGet i.translations lang with
    | none => rfl
    | some tbl => exact h lang tbl hc
  have ht : t i "lang.html" = "lang.html" := by
    simp [t, tRun, h1]
  refine ⟨ht, ?_⟩
  simp [updateDOM, ht, strTruthy]

theorem updateDOM_missing_key_literal_witness :
    t emptyI18n "lang.html" = "lang.html" ∧
    (updateDOM emptyI18n sampleDom).htmlLang = "lang.html" :=
  updateDOM_missing_key_literal emptyI18n sampleDom
    (fun lang tbl hc => by simp [emptyI18n, alGet] at hc)

theorem renderPage_frame (i : I18nState) (html route : String) (st : RouterState) :
    (renderPage i html route st).pageCache = st.pageCache ∧
    (renderPage i html route st).fetchLog = st.fetchLog ∧
    (renderPage i html route st).log = st.log := by
  refine ⟨?_, ?_, ?_⟩ <;> simp [renderPage, updateActiveNavLink, updatePageMeta_eq]

theorem navigate_reg (i : I18nState) (fetch0 : String → FetchOutcome)
    (route fp : String) (st : RouterState) (hr : routesLookup route = some fp) :
    navigate i fetch0 route st = navigateCore i fetch0 route fp st := by
  simp [navigate, navigateF, hr]

theorem navigate_unreg (i : I18nState) (fetch0 : String → FetchOutcome)
    (route : String) (st : RouterState) (hq : routesLookup route = none) :
    navigate i fetch0 route st =
      navigateCore i fetch0 "home" "pages/home.html"
        { st with log := st.log ++
            ["[router] Unknown route: \"" ++ route ++ "\", redirecting to default."] } := by
  have hh : routesLookup "home" = some "pages/home.html" := by decide
  simp [navigate, navigateF, hq, hh, DEFAULT_ROUTE]

theorem navigate_fail_eq (i : I18nState) (fetch0 : String → FetchOutcome)
    (route fp : String) (st : RouterState)
    (hr : routesLookup route = some fp)
    (hmiss : alGet st.pageCache route = none)
    (hfail : ∀ s, fetch0 fp ≠ FetchOutcome.ok s) :
    navigate i fetch0 route st =
      { st with content := showErrorHtml route
                fetchLog := st.fetchLog ++ [fp]
                log := st.log ++ ["[router] Navigation failed"] } := by
  rw [navigate_reg i fetch0 route fp st hr]
  unfold navigateCore
  simp only [showLoading, hmiss]
  unfold navigateFetch
  cases ho : fetch0 fp with
  | ok s => exact absurd ho (hfail s)
  | httpError n => simp [showError]
  | networkError => simp [showError]

/-- C3: when the fragment fetch of a registered, not-yet-cached route fails
(any non-2xx status or network error), `navigate` renders the error view —
whose markup contains the `#home` link back to the default route — the
page cache entry for the route stays absent, and a subsequent navigation
to the same route issues the fetch again. -/
theorem fetch_failure_spec (i : I18nState) (fetch0 : String → FetchOutcome)
    (route fp : String) (st : RouterState)
    (hr : routesLookup route = some fp)
    (hmiss : alGet st.pageCache route = none)
    (hfail : ∀ s, fetch0 fp ≠ FetchOutcome.ok s) :
    (navigate i fetch0 route st).content = showErrorHtml route ∧
    (∃ a b, (showErrorHtml route).data = a ++ ("#" ++ DEFAULT_ROUTE).data ++ b) ∧
    alGet (navigate i fetch0 route st).pageCache route = none ∧
    (navigate i fetch0 route st).fetchLog = st.fetchLog ++ [fp] ∧
    (navigate i fetch0 route (navigate i fetch0 route st)).fetchLog =
      (navigate i fetch0 route st).fetchLog ++ [fp] := by
  have he := navigate_fail_eq i fetch0 route fp st hr hmiss hfail
  have hc2 : alGet (navigate i fetch0 route st).pageCache route = none := by
    rw [he]
    simpa using hmiss
  refine ⟨by rw [he], ?_, hc2, by rw [he], ?_⟩
  · refine ⟨("<div class=\"page-error\"><h2>Page not found</h2><p>Could not load page: <code>").data
        ++ route.data ++ ("</code></p><a href=\"").data,
      ("\" class=\"btn-primary\">Back to Home</a></div>").data, ?_⟩
    have hpost :
        ("</code></p><a href=\"#home\" class=\"btn-primary\">Back to Home</a></div>" : String)
          = "</code></p><a href=\"" ++ "#home"
            ++ "\" class=\"btn-primary\">Back to Home</a></div>" := by decide
    have hd : ("#" ++ DEFAULT_ROUTE) = "#home" := by decide
    rw [hd]
    simp [showErrorHtml, hpost, data_append, List.append_assoc]
  · have he2 := navigate_fail_eq i fetch0 route fp (navigate i fetch0 route st) hr hc2 hfail
    rw [he2]

theorem fetch_failure_spec_witness :
    (navigate sampleI18n fetchFail "about" emptyRouter).content = showErrorHtml "about" ∧
    alGet (navigate sampleI18n fetchFail "about" emptyRouter).pageCache "about" = none ∧
    (navigate sampleI18n fetchFail "about" emptyRouter).fetchLog = [] ++ ["pages/about.html"] := by
  have h := fetch_failure_spec sampleI18n fetchFail "about" "pages/about.html" emptyRouter
    (by decide) (by decide) (fun s hs => by simp [fetchFail] at hs)
  exact ⟨h.1, h.2.2.1, h.2.2.2.1⟩

/-- C4 counterexample: a successful navigation whose fragment body is the
empty string does populate the cache (`pageCache['home'] = ""`), yet the
next navigation to the same route issues a second fetch, because the
cache-hit test `if (pageCache[route])` uses JS truthiness and the empty
string is falsy — refuting the claim that after a successful navigation no
further fetch is ever issued for that route. -/
theorem cached_empty_refetch :
    alGet (navigate sampleI18n fetchOkEmpty "home" emptyRouter).pageCache "home"
      = some "" ∧
    (navigate sampleI18n fetchOkEmpty "home" emptyRouter).fetchLog
      = ["pages/home.html"] ∧
    (navigate sampleI18n fetchOkEmpty "home"
        (navigate sampleI18n fetchOkEmpty "home" emptyRouter)).fetchLog
      = ["pages/home.html", "pages/home.html"] := by
  refine ⟨by decide, by decide, by decide⟩

theorem navigateCore_preserve (i : I18nState) (fetch0 : String → FetchOutcome)
    (route fp : String) (st : RouterState) (r h : String)
    (hc : alGet st.pageCache r = some h) (hne : h ≠ "") :
    alGet (navigateCore i fetch0 route fp st).pageCache r = some h := by
  unfold navigateCore
  simp only [showLoading]
  cases hq : alGet st.pageCache route with
  | some c =>
    by_cases ht : strTruthy c = true
    · simp [hq, ht, (renderPage_frame i c route _).1, hc]
    · have hne2 : route ≠ r := by
        intro heq
        subst heq
        rw [hq] at hc
        cases hc
        exact ht (by simp [strTruthy, hne])
      unfold navigateFetch
      cases ho : fetch0 fp with
      | ok s =>
        simp [hq, ht, ho, (renderPage_frame i s route _).1,
          alGet_alPut_other _ _ _ _ hne2, hc]
      | httpError n => simp [hq, ht, ho, showError, hc]
      | networkError => simp [hq, ht, ho, showError, hc]
  | none =>
    have hne2 : route ≠ r := by
      intro heq
      subst heq
      rw [hq] at hc
      cases hc
    unfold navigateFetch
    cases ho : fetch0 fp with
    | ok s =>
      simp [hq, ho, (renderPage_frame i s route _).1,
        alGet_alPut_other _ _ _ _ hne2, hc]
    | httpError n => simp [hq, ho, showError, hc]
    | networkError => simp [hq, ho, showError, hc]

theorem navigate_preserve (i : I18nState) (fetch0 : String → FetchOutcome)
    (route : String) (st : RouterState) (r h : String)
    (hc : alGet st.pageCache r = some h) (hne : h ≠ "") :
    alGet (navigate i fetch0 route st).pageCache r = some h := by
  cases hq : routesLookup route with
  | some fp =>
    rw [navigate_reg i fetch0 route fp st hq]
    exact navigateCore_preserve i fetch0 route fp st r h hc hne
  | none =>
    rw [navigate_unreg i fetch0 route st hq]
    exact navigateCore_preserve i fetch0 "home" "pages/home.html" _ r h hc hne

theorem navSeq_preserve (i : I18nState) (fetch0 : String → FetchOutcome)
    (rs : List String) (st : RouterState) (r h : String)
    (hc : alGet st.pageCache r = some h) (hne : h ≠ "") :
    alGet (navSeq i fetch0 rs st).pageCache r = some h := by
  induction rs generalizing st with
  | nil => simpa [navSeq]
  | cons x xs ih =>
    have hx := navigate_preserve i fetch0 x st r h hc hne
    simpa [navSeq] using ih (navigate i fetch0 x st) hx

theorem navigate_hit_fetchLog (i : I18nState) (fetch0 : String → FetchOutcome)
    (r fp : String) (st : RouterState) (h : String)
    (hr : routesLookup r = some fp)
    (hc : alGet st.pageCache r = some h) (hne : h ≠ "") :
    (navigate i fetch0 r st).fetchLog = st.fetchLog := by
  rw [navigate_reg i fetch0 r fp st hr]
  unfold navigateCore
  simp [showLoading, hc, strTruthy, hne, (renderPage_frame i h r _).2.1]

/-- C4 amended: after one navigation to a registered route completes
successfully with a NONEMPTY fragment body (so the fragment is cached
truthily), every later navigation to that route — whatever navigations
happen in between — serves the fragment from the cache and issues no
further network fetch.  The nonemptiness proviso is forced by the
counterexample: the cache-hit test uses JS truthiness, so an empty cached
fragment is fetched again. -/
theorem navigate_cached_no_refetch (i : I18nState) (fetch0 : String → FetchOutcome)
    (r fp html : String) (st : RouterState) (rs : List String)
    (hr : routesLookup r = some fp)
    (hok : fetch0 fp = FetchOutcome.ok html)
    (hne : html ≠ "")
    (hmiss : alGet st.pageCache r = none) :
    alGet (navigate i fetch0 r st).pageCache r = some html ∧
    (navigate i fetch0 r (navSeq i fetch0 rs (navigate i fetch0 r st))).fetchLog =
      (navSeq i fetch0 rs (navigate i fetch0 r st)).fetchLog := by
  have h1 : alGet (navigate i fetch0 r st).pageCache r = some html := by
    rw [navigate_reg i fetch0 r fp st hr]
    unfold navigateCore
    simp only [showLoading, hmiss]
    unfold navigateFetch
    simp [hok, (renderPage_frame i html r _).1, alGet_alPut_same]
  refine ⟨h1, ?_⟩
  have h2 := navSeq_preserve i fetch0 rs (navigate i fetch0 r st) r html h1 hne
  exact navigate_hit_fetchLog i fetch0 r fp _ html hr h2 hne

theorem navigate_cached_no_refetch_witness :
    alGet (navigate sampleI18n fetchOkPage "about" emptyRouter).pageCache "about"
      = some "<h1>pages/about.html</h1>" ∧
    (navigate sampleI18n fetchOkPage "about"
        (navSeq sampleI18n fetchOkPage ["home", "nope"]
          (navigate sampleI18n fetchOkPage "about" emptyRouter))).fetchLog =
      (navSeq sampleI18n fetchOkPage ["home", "nope"]
        (navigate sampleI18n fetchOkPage "about" emptyRouter)).fetchLog :=
  navigate_cached_no_refetch sampleI18n fetchOkPage "about" "pages/about.html"
    "<h1>pages/about.html</h1>" emptyRouter ["home", "nope"]
    (by decide) (by decide) (by decide) (by decide)

end CCC
